import Mathlib

/-!
Verification development for the `aiovk` long-poll client
(`src/aiovk/longpoll.py`).

The development shallowly embeds the Python source:

* `PyVal` models the dynamically-typed JSON-like values the code
  manipulates (None, bools, ints, strings, lists, string-keyed dicts).
* The long-poll session engine (`BaseLongPoll.__init__`,
  `UserLongPoll._get_long_poll_server`, `BaseLongPoll.wait`) is embedded
  as explicit state passing over `LPState`; the HTTP driver and the
  remote-call layer are out of scope in the source and are modelled as
  scripts/oracles of pre-decoded responses (the source receives their
  decoded JSON bodies).
* The event decoders (`MessageEvent.__init__` and its `_parse_*`
  helpers, `BotMessageEvent.__init__`) are embedded as total functions
  into `Except PyErr _`, with a `PyErr` error wherever the Python code
  would raise an uncaught exception.
* The attachment resolution (`MessageEvent.normalized_attachments`) is
  embedded with the four remote calls it performs modelled as oracles.

Machine integers: Python ints are unbounded, so they are modelled as
`Int` (and `Nat` where the source value is a bitmask).
-/

/-- A Python/JSON value as handled by the source: `None`, `bool`, `int`,
`str`, `list`, and string-keyed `dict` (all dicts built by the source and
by the VK protocol payloads it reads are string-keyed). -/
inductive PyVal where
  | none : PyVal
  | bool (b : Bool) : PyVal
  | int (i : Int) : PyVal
  | str (s : String) : PyVal
  | list (xs : List PyVal) : PyVal
  | dict (kvs : List (String × PyVal)) : PyVal

/-- Python errors raised by the embedded code paths. -/
inductive PyErr where
  | typeError : PyErr
  | valueError : PyErr
  | indexError : PyErr
  | attrError : PyErr
  | keyError : PyErr
deriving DecidableEq

/-- Python truthiness (`bool(v)`). -/
def PyVal.truthy : PyVal → Bool
  | .none => false
  | .bool b => b
  | .int i => i != 0
  | .str s => s != ""
  | .list xs => !xs.isEmpty
  | .dict kvs => !kvs.isEmpty

/-- Python `==` restricted to the comparisons the embedded code performs:
scalar against scalar, with the `bool`/`int` numeric cross-equality of
Python (`True == 1`).  The code never compares two containers for
equality, so containers compare unequal here. -/
def pyEq : PyVal → PyVal → Bool
  | .none, .none => true
  | .bool a, .bool b => a == b
  | .bool a, .int b => (if a then (1 : Int) else 0) == b
  | .int a, .bool b => a == (if b then (1 : Int) else 0)
  | .int a, .int b => a == b
  | .str a, .str b => a == b
  | _, _ => false

/-- Interpret a value as a Python number for arithmetic/comparison
contexts (`bool` is an `int` subclass in Python); anything else is a
`TypeError` in those contexts. -/
def pyToInt : PyVal → Except PyErr Int
  | .bool b => .ok (if b then 1 else 0)
  | .int i => .ok i
  | _ => .error .typeError

/-- Python `int(v)` coercion as used by the source: ints and bools pass
through, decimal strings parse (`ValueError` otherwise), anything else
is a `TypeError`. -/
def pyIntCoerce : PyVal → Except PyErr Int
  | .bool b => .ok (if b then 1 else 0)
  | .int i => .ok i
  | .str s =>
    match s.toInt? with
    | some i => .ok i
    | Option.none => .error .valueError
  | _ => .error .typeError

/-- First-match lookup in a string-keyed association list (a dict). -/
def dictLookup (kvs : List (String × PyVal)) (k : String) : Option PyVal :=
  (kvs.find? (fun kv => kv.1 == k)).map (fun kv => kv.2)

/-- Python `d.get(k)` with default `None`; `AttributeError` when the
receiver is not a dict. -/
def PyVal.get : PyVal → String → Except PyErr PyVal
  | .dict kvs, k => .ok ((dictLookup kvs k).getD .none)
  | _, _ => .error .attrError

/-- Python `d.get(k, default)`; `AttributeError` when the receiver is
not a dict. -/
def PyVal.getD : PyVal → String → PyVal → Except PyErr PyVal
  | .dict kvs, k, d => .ok ((dictLookup kvs k).getD d)
  | _, _, _ => .error .attrError

/-- Python `a or b` (left operand when truthy, right otherwise). -/
def pyOr (a b : PyVal) : PyVal := if a.truthy then a else b

/-- Python `v is None` (identity against the `None` singleton). -/
def PyVal.isNone : PyVal → Bool
  | .none => true
  | _ => false

/-- Substring test on character lists (helper for Python `in` on
strings). -/
def strContainsSub : List Char → List Char → Bool
  | _, [] => true
  | [], _ :: _ => false
  | c :: cs, pat => pat.isPrefixOf (c :: cs) || strContainsSub cs pat

/-- Python `k in v`: key test on dicts, substring test on strings,
membership (by `==`) on lists, `TypeError` otherwise. -/
def pyContains (v : PyVal) (k : String) : Except PyErr Bool :=
  match v with
  | .dict kvs => .ok (dictLookup kvs k).isSome
  | .str s => .ok (strContainsSub s.data k.data)
  | .list xs => .ok (xs.any (fun x => pyEq x (.str k)))
  | _ => .error .typeError

/-- Python `str(v)` for the scalar values the source formats into
strings (attachment tokens and ids are ints or strings in the protocol);
containers get a placeholder since the embedded flows never format
them. -/
def PyVal.pyStr : PyVal → String
  | .none => "None"
  | .bool b => if b then "True" else "False"
  | .int i => toString i
  | .str s => s
  | .list _ => "[...]"
  | .dict _ => "\x7b...\x7d"

/-- Python `s.replace(pat, rep)` on character lists: replace every
non-overlapping occurrence left to right (the source only uses non-empty
patterns; an empty pattern is returned unchanged here).  The fuel is
only a structural-recursion device: every step consumes at least one
character, so fuel `s.length` never runs out. -/
def pyReplaceGo (pat rep : List Char) : Nat → List Char → List Char
  | 0, s => s
  | _ + 1, [] => []
  | fuel + 1, c :: cs =>
    if pat ≠ [] ∧ pat.isPrefixOf (c :: cs) then
      rep ++ pyReplaceGo pat rep fuel (List.drop (pat.length - 1) cs)
    else
      c :: pyReplaceGo pat rep fuel cs

/-- Python `s.replace(pat, rep)` on strings. -/
def pyReplace (s pat rep : String) : String :=
  ⟨pyReplaceGo pat.data rep.data s.data.length s.data⟩

/-- Python `token.split("_", 1)` followed by unpacking into two names:
split at the first underscore; `Option.none` models the `ValueError`
raised when no underscore is present (a one-element split). -/
def splitOnceUnderscore (s : String) : Option (String × String) :=
  match s.data.findIdx? (fun c => c == '_') with
  | Option.none => Option.none
  | some i => some (⟨s.data.take i⟩, ⟨s.data.drop (i + 1)⟩)

/-!
## Long-poll session engine

Embedding of `BaseLongPoll.__init__` (lines 41-44),
`UserLongPoll._get_long_poll_server` (lines 116-122) and
`BaseLongPoll.wait` (lines 53-94).  The HTTP driver `get_text` and the
remote call `messages.getLongPollServer` are external collaborators; the
embedding feeds `wait` a script of pre-decoded poll responses and a list
of pre-decoded handoff responses, consumed in order.  Cursor and key
values are modelled at the granularity the protocol uses (integers and
strings).
-/

/-- The mutable session coordinates of `BaseLongPoll`
(`self.pts`, `self.ts`, `self.key`, `self.base_url`). -/
structure LPState where
  pts : Option Int
  ts : Option Int
  key : Option String
  base_url : Option String
deriving DecidableEq

/-- Source: `BaseLongPoll.__init__` lines 41-44: all four coordinates start
unset. -/
def initState : LPState :=
  { pts := Option.none, ts := Option.none, key := Option.none, base_url := Option.none }

/-- A decoded `*.getLongPollServer` response body; `Option.none` in a
field models the key being absent from the response dict (a `KeyError`
on subscript access). -/
structure HandoffResp where
  server : Option String
  key : Option String
  ts : Option Int
  pts : Option Int

/-- Source: `UserLongPoll._get_long_poll_server` (lines 116-122), with the
assignments performed in source order so that an incomplete response
(`KeyError`, returned `false`) leaves exactly the already-assigned
fields updated:
`self.pts = response.get('pts')`, `self.ts = response['ts']`,
`self.key = response['key']`, `self.base_url = f'https://{server}'`. -/
def getLongPollServerU (s : LPState) (r : HandoffResp) : LPState × Bool :=
  let s1 := { s with pts := r.pts }
  match r.ts with
  | Option.none => (s1, false)
  | some ts =>
    let s2 := { s1 with ts := some ts }
    match r.key with
    | Option.none => (s2, false)
    | some k =>
      let s3 := { s2 with key := some k }
      match r.server with
      | Option.none => (s3, false)
      | some sv => ({ s3 with base_url := some ("https://" ++ sv) }, true)

/-- A decoded long-poll GET response: HTTP status, the optional `failed`
field, the optional `ts` field (`Option.none` models a missing key, a
`KeyError` on `response['ts']`), and the raw update batch. -/
structure GetResp where
  status : Nat
  failed : Option Int
  ts : Option Int
  updates : List PyVal

/-- How one GET response is classified by `wait` (lines 72-94). -/
inductive StepOut where
  | success : StepOut
  | softResync : StepOut
  | invalidated : StepOut
  | transportError : StepOut
  | versionError : StepOut
  | keyError : StepOut
deriving DecidableEq

/-- One response-classification pass of `BaseLongPoll.wait`
(lines 72-94), without the repetition: HTTP 403 raises; a falsy `failed`
(absent or `0`) is success and advances `ts`; `failed == 1` advances
`ts` and asks for a repeat; `failed == 4` raises `VkLongPollError(4,...)`
leaving the state untouched; any other truthy `failed` clears
`base_url` and asks for a repeat. -/
def classifyStep (s : LPState) (r : GetResp) : LPState × StepOut :=
  if r.status = 403 then (s, .transportError)
  else if r.failed = Option.none ∨ r.failed = some 0 then
    match r.ts with
    | Option.none => (s, .keyError)
    | some t => ({ s with ts := some t }, .success)
  else if r.failed = some 1 then
    match r.ts with
    | Option.none => (s, .keyError)
    | some t => ({ s with ts := some t }, .softResync)
  else if r.failed = some 4 then (s, .versionError)
  else ({ s with base_url := Option.none }, .invalidated)

/-- The outcome `wait` terminates with. -/
inductive PollOutcome where
  /-- The response object returned to the caller (`return response`). -/
  | polled (r : GetResp) : PollOutcome
  /-- Source: `VkLongPollError(403, ...)`. -/
  | transport (status : Nat) : PollOutcome
  /-- Source: `VkLongPollError(4, 'An invalid version number ...')`. -/
  | version : PollOutcome
  /-- Source: `KeyError` from `response['ts']`. -/
  | keyErr : PollOutcome
  /-- The handoff remote call failed or returned an incomplete payload. -/
  | handoffError : PollOutcome
  /-- The response script is exhausted (the environment never answered;
  an artifact of scripting the driver, unreachable in the theorems). -/
  | noResponse : PollOutcome

/-- Result of running `wait`: the final session state, the outcome, the
number of repeat re-entries taken at line 94 (`return await self.wait()`),
and the number of handoff remote calls performed. -/
structure WaitTrace where
  state : LPState
  outcome : PollOutcome
  repeats : Nat
  handoffCalls : Nat

/-- Lines 58-59 of `wait`: when `base_url` is unset, perform the
handoff remote call first (consume the next scripted handoff response).
Returns the updated state, the remaining handoff script, the number of
handoff calls performed (0 or 1), and whether polling may proceed
(`false` when the handoff raised, i.e. the response was incomplete, or
when the script has no response to offer). -/
def handoffPhase (s : LPState) (hs : List HandoffResp) :
    LPState × List HandoffResp × Nat × Bool :=
  match s.base_url, hs with
  | some _, _ => (s, hs, 0, true)
  | Option.none, [] => (s, [], 0, false)
  | Option.none, h :: hs' =>
    let p := getLongPollServerU s h
    (p.1, hs', 1, p.2)

/-- Source: `BaseLongPoll.wait` (lines 53-94): perform the handoff when
`base_url` is unset (lines 58-59), issue one GET (consume the script
head), classify it, and on soft resync or session invalidation repeat
via the recursive self-call of line 94.  The `repeats` and
`handoffCalls` counters record how many line-94 re-entries and handoff
remote calls the run performed. -/
def wait (hs : List HandoffResp) (script : List GetResp) (s : LPState) : WaitTrace :=
  match handoffPhase s hs with
  | (s1, _, hc, false) =>
    { state := s1, outcome := .handoffError, repeats := 0, handoffCalls := hc }
  | (s1, hs1, hc, true) =>
    match script with
    | [] => { state := s1, outcome := .noResponse, repeats := 0, handoffCalls := hc }
    | r :: rest =>
      match classifyStep s1 r with
      | (s2, .success) =>
        { state := s2, outcome := .polled r, repeats := 0, handoffCalls := hc }
      | (s2, .transportError) =>
        { state := s2, outcome := .transport r.status, repeats := 0, handoffCalls := hc }
      | (s2, .versionError) =>
        { state := s2, outcome := .version, repeats := 0, handoffCalls := hc }
      | (s2, .keyError) =>
        { state := s2, outcome := .keyErr, repeats := 0, handoffCalls := hc }
      | (s2, .softResync) =>
        let w := wait hs1 rest s2
        { state := w.state, outcome := w.outcome, repeats := w.repeats + 1,
          handoffCalls := w.handoffCalls + hc }
      | (s2, .invalidated) =>
        let w := wait hs1 rest s2
        { state := w.state, outcome := w.outcome, repeats := w.repeats + 1,
          handoffCalls := w.handoffCalls + hc }

/-- Nesting depth of `wait` invocations for one external `wait()` call:
the source repeats by calling itself (`return await self.wait()`,
line 94), so each repetition adds one nested coroutine frame. -/
def waitDepth (hs : List HandoffResp) (script : List GetResp) (s : LPState) : Nat :=
  (wait hs script s).repeats + 1

/-- The session states reachable through the engine: the freshly
constructed state, and closure under handoff calls and single GET
classification passes (including the failing ones, which leave the
state as it was at the raise point). -/
inductive Reachable : LPState → Prop where
  | init : Reachable initState
  | handoff (s : LPState) (r : HandoffResp) :
      Reachable s → Reachable (getLongPollServerU s r).1
  | step (s : LPState) (r : GetResp) :
      Reachable s → Reachable (classifyStep s r).1

/-!
## Protocol enumerations and dispatch tables

Embedding of `CHAT_START_ID`, `VkEventType`, `VkPlatform`,
`VkOfflineType`, `VkMessageFlag`, `VkPeerFlag`, `VkChatEventType`,
`MESSAGE_EXTRA_FIELDS`, `EVENT_ATTRS_MAPPING`, `PARSE_PEER_ID_EVENTS`
and `PARSE_MESSAGE_FLAGS_EVENTS` (lines 159-551).
-/

/-- Source: `CHAT_START_ID = int(2E9)` (line 159): the id chat conversations
start at. -/
def CHAT_START_ID : Int := 2000000000

/-- Source: `VkEventType` (lines 189-280). -/
inductive VkEventType where
  | MESSAGE_FLAGS_REPLACE
  | MESSAGE_FLAGS_SET
  | MESSAGE_FLAGS_RESET
  | MESSAGE_NEW
  | MESSAGE_EDIT
  | READ_ALL_INCOMING_MESSAGES
  | READ_ALL_OUTGOING_MESSAGES
  | USER_ONLINE
  | USER_OFFLINE
  | PEER_FLAGS_RESET
  | PEER_FLAGS_REPLACE
  | PEER_FLAGS_SET
  | PEER_DELETE_ALL
  | PEER_RESTORE_ALL
  | CHAT_EDIT
  | CHAT_UPDATE
  | USER_TYPING
  | USER_TYPING_IN_CHAT
  | USER_RECORDING_VOICE
  | USER_CALL
  | MESSAGES_COUNTER_UPDATE
  | NOTIFICATION_SETTINGS_UPDATE
deriving DecidableEq

/-- The numeric code of each `VkEventType` member. -/
def VkEventType.code : VkEventType → Int
  | .MESSAGE_FLAGS_REPLACE => 1
  | .MESSAGE_FLAGS_SET => 2
  | .MESSAGE_FLAGS_RESET => 3
  | .MESSAGE_NEW => 4
  | .MESSAGE_EDIT => 5
  | .READ_ALL_INCOMING_MESSAGES => 6
  | .READ_ALL_OUTGOING_MESSAGES => 7
  | .USER_ONLINE => 8
  | .USER_OFFLINE => 9
  | .PEER_FLAGS_RESET => 10
  | .PEER_FLAGS_REPLACE => 11
  | .PEER_FLAGS_SET => 12
  | .PEER_DELETE_ALL => 13
  | .PEER_RESTORE_ALL => 14
  | .CHAT_EDIT => 51
  | .CHAT_UPDATE => 52
  | .USER_TYPING => 61
  | .USER_TYPING_IN_CHAT => 62
  | .USER_RECORDING_VOICE => 64
  | .USER_CALL => 70
  | .MESSAGES_COUNTER_UPDATE => 80
  | .NOTIFICATION_SETTINGS_UPDATE => 114

/-- All `VkEventType` members, in declaration order. -/
def VkEventType.all : List VkEventType :=
  [.MESSAGE_FLAGS_REPLACE, .MESSAGE_FLAGS_SET, .MESSAGE_FLAGS_RESET,
   .MESSAGE_NEW, .MESSAGE_EDIT, .READ_ALL_INCOMING_MESSAGES,
   .READ_ALL_OUTGOING_MESSAGES, .USER_ONLINE, .USER_OFFLINE,
   .PEER_FLAGS_RESET, .PEER_FLAGS_REPLACE, .PEER_FLAGS_SET,
   .PEER_DELETE_ALL, .PEER_RESTORE_ALL, .CHAT_EDIT, .CHAT_UPDATE,
   .USER_TYPING, .USER_TYPING_IN_CHAT, .USER_RECORDING_VOICE,
   .USER_CALL, .MESSAGES_COUNTER_UPDATE, .NOTIFICATION_SETTINGS_UPDATE]

/-- Source: `VkEventType(i)` on an integer: member lookup by value, `ValueError`
(here `Option.none`) when the value is not a member. -/
def VkEventType.ofInt (i : Int) : Option VkEventType :=
  VkEventType.all.find? (fun t => t.code == i)

/-- Source: `VkEventType(v)` on an arbitrary value: `IntEnum` lookup succeeds
exactly on ints (and bools, which are ints in Python) holding a member
value; any other value raises `ValueError` (`Option.none` here). -/
def VkEventType.ofCode : PyVal → Option VkEventType
  | .int i => VkEventType.ofInt i
  | .bool b => VkEventType.ofInt (if b then 1 else 0)
  | _ => Option.none

/-- Source: `VkPlatform` (lines 376-398). -/
inductive VkPlatform where
  | MOBILE | IPHONE | IPAD | ANDROID | WPHONE | WINDOWS | WEB
deriving DecidableEq

/-- The numeric value of each `VkPlatform` member. -/
def VkPlatform.value : VkPlatform → Int
  | .MOBILE => 1
  | .IPHONE => 2
  | .IPAD => 3
  | .ANDROID => 4
  | .WPHONE => 5
  | .WINDOWS => 6
  | .WEB => 7

/-- Source: `VkPlatform(i)` member lookup. -/
def VkPlatform.ofInt (i : Int) : Option VkPlatform :=
  [VkPlatform.MOBILE, .IPHONE, .IPAD, .ANDROID, .WPHONE, .WINDOWS,
   .WEB].find? (fun p => p.value == i)

/-- Source: `VkOfflineType` (lines 401-408): `EXIT = 0`, `AWAY = 1`. -/
inductive VkOfflineType where
  | EXIT | AWAY
deriving DecidableEq

/-- Source: `VkOfflineType(v)`: `IntEnum` lookup on the flags value; bools are
ints; a non-member or non-int value raises `ValueError` (caught by the
source at this call site). -/
def VkOfflineType.ofVal : PyVal → Option VkOfflineType
  | .int 0 => some .EXIT
  | .int 1 => some .AWAY
  | .bool false => some .EXIT
  | .bool true => some .AWAY
  | _ => Option.none

/-- Source: `VkMessageFlag` (lines 411-449). -/
inductive VkMessageFlag where
  | UNREAD | OUTBOX | REPLIED | IMPORTANT | CHAT | FRIENDS | SPAM
  | DELETED | FIXED | MEDIA | HIDDEN | DELETED_ALL
deriving DecidableEq

/-- The bit value of each message flag (`1, 2, 2**2, ..., 2**17`). -/
def VkMessageFlag.value : VkMessageFlag → Nat
  | .UNREAD => 1
  | .OUTBOX => 2
  | .REPLIED => 4
  | .IMPORTANT => 8
  | .CHAT => 16
  | .FRIENDS => 32
  | .SPAM => 64
  | .DELETED => 128
  | .FIXED => 256
  | .MEDIA => 512
  | .HIDDEN => 65536
  | .DELETED_ALL => 131072

/-- The bit position of each message flag (`value = 2 ^ bit`). -/
def VkMessageFlag.bit : VkMessageFlag → Nat
  | .UNREAD => 0
  | .OUTBOX => 1
  | .REPLIED => 2
  | .IMPORTANT => 3
  | .CHAT => 4
  | .FRIENDS => 5
  | .SPAM => 6
  | .DELETED => 7
  | .FIXED => 8
  | .MEDIA => 9
  | .HIDDEN => 16
  | .DELETED_ALL => 17

/-- All `VkMessageFlag` members, in declaration order (iteration order
of `for x in VkMessageFlag`). -/
def VkMessageFlag.all : List VkMessageFlag :=
  [.UNREAD, .OUTBOX, .REPLIED, .IMPORTANT, .CHAT, .FRIENDS, .SPAM,
   .DELETED, .FIXED, .MEDIA, .HIDDEN, .DELETED_ALL]

/-- Source: `VkPeerFlag` (lines 452-459): `IMPORTANT = 1`, `UNANSWERED = 2`. -/
inductive VkPeerFlag where
  | IMPORTANT | UNANSWERED
deriving DecidableEq

/-- The bit value of each peer flag. -/
def VkPeerFlag.value : VkPeerFlag → Nat
  | .IMPORTANT => 1
  | .UNANSWERED => 2

/-- All `VkPeerFlag` members. -/
def VkPeerFlag.all : List VkPeerFlag := [.IMPORTANT, .UNANSWERED]

/-- Source: `VkChatEventType` (lines 462-493). -/
inductive VkChatEventType where
  | TITLE | PHOTO | ADMIN_ADDED | SETTINGS_CHANGED | MESSAGE_PINNED
  | USER_JOINED | USER_LEFT | USER_KICKED | ADMIN_REMOVED
  | KEYBOARD_RECEIVED
deriving DecidableEq

/-- The numeric value of each chat-event sub-type. -/
def VkChatEventType.value : VkChatEventType → Int
  | .TITLE => 1
  | .PHOTO => 2
  | .ADMIN_ADDED => 3
  | .SETTINGS_CHANGED => 4
  | .MESSAGE_PINNED => 5
  | .USER_JOINED => 6
  | .USER_LEFT => 7
  | .USER_KICKED => 8
  | .ADMIN_REMOVED => 9
  | .KEYBOARD_RECEIVED => 11

/-- Source: `VkChatEventType(v)`: member lookup on ints (and bools);
`Option.none` models the `ValueError` the source catches. -/
def VkChatEventType.ofVal : PyVal → Option VkChatEventType
  | .int i =>
    [VkChatEventType.TITLE, .PHOTO, .ADMIN_ADDED, .SETTINGS_CHANGED,
     .MESSAGE_PINNED, .USER_JOINED, .USER_LEFT, .USER_KICKED,
     .ADMIN_REMOVED, .KEYBOARD_RECEIVED].find? (fun t => t.value == i)
  | .bool b =>
    [VkChatEventType.TITLE, .PHOTO, .ADMIN_ADDED, .SETTINGS_CHANGED,
     .MESSAGE_PINNED, .USER_JOINED, .USER_LEFT, .USER_KICKED,
     .ADMIN_REMOVED, .KEYBOARD_RECEIVED].find?
      (fun t => t.value == (if b then (1 : Int) else 0))
  | _ => Option.none

/-- Source: `MESSAGE_EXTRA_FIELDS` (lines 496-498). -/
def MESSAGE_EXTRA_FIELDS : List String :=
  ["peer_id", "timestamp", "text", "extra_values", "attachments", "random_id"]

/-- Source: `EVENT_ATTRS_MAPPING` (lines 501-532): the ordered positional field
names of each event type. -/
def eventAttrs : VkEventType → List String
  | .MESSAGE_FLAGS_REPLACE => ["message_id", "flags"] ++ MESSAGE_EXTRA_FIELDS
  | .MESSAGE_FLAGS_SET => ["message_id", "mask"] ++ MESSAGE_EXTRA_FIELDS
  | .MESSAGE_FLAGS_RESET => ["message_id", "mask"] ++ MESSAGE_EXTRA_FIELDS
  | .MESSAGE_NEW => ["message_id", "flags"] ++ MESSAGE_EXTRA_FIELDS
  | .MESSAGE_EDIT => ["message_id", "mask"] ++ MESSAGE_EXTRA_FIELDS
  | .READ_ALL_INCOMING_MESSAGES => ["peer_id", "local_id"]
  | .READ_ALL_OUTGOING_MESSAGES => ["peer_id", "local_id"]
  | .USER_ONLINE => ["user_id", "extra", "timestamp"]
  | .USER_OFFLINE => ["user_id", "flags", "timestamp"]
  | .PEER_FLAGS_RESET => ["peer_id", "mask"]
  | .PEER_FLAGS_REPLACE => ["peer_id", "flags"]
  | .PEER_FLAGS_SET => ["peer_id", "mask"]
  | .PEER_DELETE_ALL => ["peer_id", "local_id"]
  | .PEER_RESTORE_ALL => ["peer_id", "local_id"]
  | .CHAT_EDIT => ["chat_id", "self"]
  | .CHAT_UPDATE => ["type_id", "peer_id", "info"]
  | .USER_TYPING => ["user_id", "flags"]
  | .USER_TYPING_IN_CHAT => ["user_id", "chat_id"]
  | .USER_RECORDING_VOICE => ["peer_id", "user_id", "flags", "timestamp"]
  | .USER_CALL => ["user_id", "call_id"]
  | .MESSAGES_COUNTER_UPDATE => ["count"]
  | .NOTIFICATION_SETTINGS_UPDATE => ["values"]

/-- Source: `PARSE_PEER_ID_EVENTS` (lines 545-547): the event types whose
positional fields contain `peer_id`, computed as in the source. -/
def PARSE_PEER_ID_EVENTS : List VkEventType :=
  VkEventType.all.filter (fun t => (eventAttrs t).contains "peer_id")

/-- Source: `PARSE_MESSAGE_FLAGS_EVENTS` (lines 548-551). -/
def PARSE_MESSAGE_FLAGS_EVENTS : List VkEventType :=
  [.MESSAGE_FLAGS_REPLACE, .MESSAGE_NEW]

/-!
## Array-event decoder

Embedding of `MessageEvent` (lines 554-711).  A Python object's
attribute set is dynamic; the embedding gives the structure one field
per attribute name the source ever assigns or reads, types them `PyVal`
(they hold arbitrary values, and `self.extra_values` spraying can
overwrite any of them), and uses `Option PyVal` for attributes that
`__init__` does not pre-set, where `Option.none` is "attribute absent"
and a read raises `AttributeError`.  Attribute names outside this set
(possible through `_dict_to_attr` on server-supplied dicts) are kept in
`others`; the decoder never reads them back.  The typed results of the
`_parse_*` helpers (`message_flags`, `peer_flags`, `update_type`,
`platform`, `offline_type`, `datetime`, `message`) are separate typed
fields; if a server dict sprays one of those names before parsing, the
sprayed value lands in `others` (the decoder never reads these names
either, so no read can observe the difference).
-/

/-- The value of `self.type`: either an actual `VkEventType` member or,
on the `except ValueError` path (or after attribute spraying), the raw
value preserved verbatim. -/
inductive EType where
  | enum (t : VkEventType) : EType
  | raw (v : PyVal) : EType

/-- The value of `self.update_type`: a `VkChatEventType` member or the
raw `type_id` preserved verbatim. -/
inductive ChatUpdateType where
  | enum (t : VkChatEventType) : ChatUpdateType
  | raw (v : PyVal) : ChatUpdateType

/-- Python `self.type is member` (identity against an enum singleton):
true only for the very member, never for a plain value equal to it. -/
def EType.isMember : EType → VkEventType → Bool
  | .enum t', t => t' == t
  | .raw _, _ => false

/-- Python `self.type in eventTypeList` (`==` against each member; an
`IntEnum` member equals plain ints of its value). -/
def EType.memList : EType → List VkEventType → Bool
  | .enum t, L => L.contains t
  | .raw v, L => L.any (fun t => pyEq v (.int t.code))

/-- The event object built by `MessageEvent.__init__` (lines 567-636). -/
structure MessageEvent where
  raw : List PyVal
  type : EType
  from_user : PyVal
  from_chat : PyVal
  from_group : PyVal
  from_me : PyVal
  to_me : PyVal
  attachments : PyVal
  attachments_ids : PyVal
  pad_id : PyVal
  keyboard : PyVal
  message_data : PyVal
  message_id : PyVal
  timestamp : PyVal
  peer_id : PyVal
  flags : PyVal
  extra : PyVal
  extra_values : PyVal
  type_id : PyVal
  group_id : PyVal
  fwd_messages : PyVal
  text : PyVal
  state : PyVal
  mask : Option PyVal
  local_id : Option PyVal
  user_id : Option PyVal
  chat_id : Option PyVal
  self : Option PyVal
  info : Option PyVal
  call_id : Option PyVal
  count : Option PyVal
  values : Option PyVal
  random_id : Option PyVal
  message : Option PyVal
  message_flags : Option (List VkMessageFlag)
  peer_flags : Option (List VkPeerFlag)
  update_type : Option ChatUpdateType
  platform : Option VkPlatform
  offline_type : Option VkOfflineType
  datetime : Option PyVal
  others : List (String × PyVal)

/-- The defaults assigned by `MessageEvent.__init__` lines 567-593
(`self.type` is assigned in the `try`/`except` before any read; the
placeholder here is always overwritten by `decodeArrayEvent`). -/
def initEvent (raw : List PyVal) : MessageEvent where
  raw := raw
  type := .raw .none
  from_user := .bool false
  from_chat := .bool false
  from_group := .bool false
  from_me := .bool false
  to_me := .bool false
  attachments := .dict []
  attachments_ids := .list []
  pad_id := .none
  keyboard := .str ""
  message_data := .none
  message_id := .none
  timestamp := .none
  peer_id := .none
  flags := .none
  extra := .none
  extra_values := .none
  type_id := .none
  group_id := .none
  fwd_messages := .list []
  text := .none
  state := .str ""
  mask := Option.none
  local_id := Option.none
  user_id := Option.none
  chat_id := Option.none
  self := Option.none
  info := Option.none
  call_id := Option.none
  count := Option.none
  values := Option.none
  random_id := Option.none
  message := Option.none
  message_flags := Option.none
  peer_flags := Option.none
  update_type := Option.none
  platform := Option.none
  offline_type := Option.none
  datetime := Option.none
  others := []

/-- Python `setattr(self, name, v)` for the attribute names the source
can assign dynamically (`_list_to_attr`, `_dict_to_attr`); unknown names
become fresh attributes, kept in `others`. -/
def MessageEvent.setAttr (e : MessageEvent) (name : String) (v : PyVal) : MessageEvent :=
  match name with
  | "type" => { e with type := .raw v }
  | "from_user" => { e with from_user := v }
  | "from_chat" => { e with from_chat := v }
  | "from_group" => { e with from_group := v }
  | "from_me" => { e with from_me := v }
  | "to_me" => { e with to_me := v }
  | "attachments" => { e with attachments := v }
  | "attachments_ids" => { e with attachments_ids := v }
  | "pad_id" => { e with pad_id := v }
  | "keyboard" => { e with keyboard := v }
  | "message_data" => { e with message_data := v }
  | "message_id" => { e with message_id := v }
  | "timestamp" => { e with timestamp := v }
  | "peer_id" => { e with peer_id := v }
  | "flags" => { e with flags := v }
  | "extra" => { e with extra := v }
  | "extra_values" => { e with extra_values := v }
  | "type_id" => { e with type_id := v }
  | "group_id" => { e with group_id := v }
  | "fwd_messages" => { e with fwd_messages := v }
  | "text" => { e with text := v }
  | "state" => { e with state := v }
  | "mask" => { e with mask := some v }
  | "local_id" => { e with local_id := some v }
  | "user_id" => { e with user_id := some v }
  | "chat_id" => { e with chat_id := some v }
  | "self" => { e with self := some v }
  | "info" => { e with info := some v }
  | "call_id" => { e with call_id := some v }
  | "count" => { e with count := some v }
  | "values" => { e with values := some v }
  | "random_id" => { e with random_id := some v }
  | "message" => { e with message := some v }
  | _ => { e with others := (name, v) :: e.others }

/-- Attribute read of a possibly-absent attribute: `AttributeError` when
it was never assigned. -/
def getReq : Option PyVal → Except PyErr PyVal
  | some v => .ok v
  | Option.none => .error .attrError

/-- Python `v[k]` dict subscript: `KeyError` when the key is missing,
`TypeError` on a non-dict receiver. -/
def pySubscr (v : PyVal) (k : String) : Except PyErr PyVal :=
  match v with
  | .dict kvs =>
    match dictLookup kvs k with
    | some x => .ok x
    | Option.none => .error .keyError
  | _ => .error .typeError

/-- Source: `MessageEvent._list_to_attr` (lines 638-640): positional assignment
of `raw[1:]` into the named fields, truncating to the shorter of the two
lists. -/
def listToAttr (e : MessageEvent) (rawTail : List PyVal) (attrs : List String) : MessageEvent :=
  ((attrs.zip rawTail).foldl (fun acc p => acc.setAttr p.1 p.2) e)

/-- Source: `MessageEvent._dict_to_attr` (lines 642-644): assign every key/value
pair of a dict as an attribute; iterating a non-dict raises. -/
def dictToAttr (e : MessageEvent) (v : PyVal) : Except PyErr MessageEvent :=
  match v with
  | .dict kvs => .ok (kvs.foldl (fun acc kv => acc.setAttr kv.1 kv.2) e)
  | _ => .error .attrError

/-- Source: `MessageEvent._parse_peer_id` (lines 646-660). -/
def MessageEvent.parse_peer_id (e : MessageEvent) : Except PyErr MessageEvent := do
  let p ← pyToInt e.peer_id
  if p < 0 then
    .ok { e with from_group := .bool true, group_id := .int |p| }
  else if p > CHAT_START_ID then
    let e1 := { e with from_chat := PyVal.bool true,
                       chat_id := some (.int (p - CHAT_START_ID)) }
    if e1.extra_values.truthy then
      if (← pyContains e1.extra_values "from") then do
        let f ← pySubscr e1.extra_values "from"
        let fi ← pyIntCoerce f
        .ok { e1 with user_id := some (.int fi) }
      else .ok e1
    else .ok e1
  else
    .ok { e with from_user := .bool true, user_id := some e.peer_id }

/-- The set comprehension of `_parse_message_flags` (line 664): the
members whose bit is set in the flags integer, in member iteration
order. -/
def msgFlagsOf (flags : Int) : List VkMessageFlag :=
  VkMessageFlag.all.filter (fun x => flags.land (x.value : Int) != 0)

/-- Source: `MessageEvent._parse_message_flags` (lines 662-665); `self.flags & x`
on a non-number raises `TypeError`. -/
def MessageEvent.parse_message_flags (e : MessageEvent) : Except PyErr MessageEvent := do
  let f ← pyToInt e.flags
  .ok { e with message_flags := some (msgFlagsOf f) }

/-- The set comprehension of `_parse_peer_flags` (line 668). -/
def peerFlagsOf (flags : Int) : List VkPeerFlag :=
  VkPeerFlag.all.filter (fun x => flags.land (x.value : Int) != 0)

/-- Source: `MessageEvent._parse_peer_flags` (lines 667-670). -/
def MessageEvent.parse_peer_flags (e : MessageEvent) : Except PyErr MessageEvent := do
  let f ← pyToInt e.flags
  .ok { e with peer_flags := some (peerFlagsOf f) }

/-- Source: `MessageEvent._parse_message` (lines 672-687): for `MESSAGE_NEW`,
the outbox bit of `flags` selects `from_me` or `to_me`; then `<br>` is
turned into a newline in `text` and the four HTML entities are unescaped
into `message`. -/
def MessageEvent.parse_message (e : MessageEvent) : Except PyErr MessageEvent := do
  let e1 ←
    if e.type.isMember .MESSAGE_NEW then do
      let f ← pyToInt e.flags
      if f.land (VkMessageFlag.OUTBOX.value : Int) != 0 then
        pure { e with from_me := PyVal.bool true }
      else
        pure { e with to_me := PyVal.bool true }
    else pure e
  match e1.text with
  | .str t =>
    let t1 := pyReplace t "<br>" "\n"
    let m := pyReplace (pyReplace (pyReplace (pyReplace t1 "&lt;" "<")
              "&gt;" ">") "&quot;" "\"") "&amp;" "&"
    .ok { e1 with text := .str t1, message := some (.str m) }
  | _ => .error .attrError

/-- Source: `MessageEvent._parse_online_status` (lines 689-698): the `try` there
catches only `ValueError` (a failed enum lookup, `pass`); the `&` on a
non-number `extra` raises `TypeError`, which propagates. -/
def MessageEvent.parse_online_status (e : MessageEvent) : Except PyErr MessageEvent :=
  if e.type.isMember .USER_ONLINE then do
    let x ← pyToInt e.extra
    match VkPlatform.ofInt (x.land 255) with
    | some p => .ok { e with platform := some p }
    | Option.none => .ok e
  else if e.type.isMember .USER_OFFLINE then
    match VkOfflineType.ofVal e.flags with
    | some o => .ok { e with offline_type := some o }
    | Option.none => .ok e
  else .ok e

/-- Source: `MessageEvent._parse_chat_info` (lines 700-711). -/
def MessageEvent.parse_chat_info (e : MessageEvent) : Except PyErr MessageEvent :=
  if pyEq e.type_id (.int VkChatEventType.ADMIN_ADDED.value) then do
    let old ← getReq e.info
    .ok { e with info := some (.dict [("admin_id", old)]) }
  else if pyEq e.type_id (.int VkChatEventType.MESSAGE_PINNED.value) then do
    let old ← getReq e.info
    .ok { e with info := some (.dict [("conversation_message_id", old)]) }
  else if pyEq e.type_id (.int VkChatEventType.USER_JOINED.value)
       || pyEq e.type_id (.int VkChatEventType.USER_LEFT.value)
       || pyEq e.type_id (.int VkChatEventType.USER_KICKED.value)
       || pyEq e.type_id (.int VkChatEventType.ADMIN_REMOVED.value) then do
    let old ← getReq e.info
    .ok { e with info := some (.dict [("user_id", old)]) }
  else .ok e

/-- Source: `MessageEvent.__init__` (lines 567-636) as a function from the raw
positional array to the decoded event: type lookup with the
`except ValueError` fallback preserving the raw type code, positional
field assignment, the `extra_values` spray, the two `PARSE_*` passes,
the per-type dispatch chain, and the `datetime` derivation
(`datetime.utcfromtimestamp` is modelled as tagging the numeric
timestamp; a truthy non-number raises `TypeError` as in the source). -/
def decodeArrayEvent (raws : List PyVal) : Except PyErr MessageEvent := do
  let e0 := initEvent raws
  match raws with
  | [] => .error .indexError
  | code :: rest =>
    let e1 :=
      match VkEventType.ofCode code with
      | some t => listToAttr { e0 with type := .enum t } rest (eventAttrs t)
      | Option.none => { e0 with type := .raw code }
    let e2 ← if e1.extra_values.truthy then dictToAttr e1 e1.extra_values else pure e1
    let e3 ← if e2.type.memList PARSE_PEER_ID_EVENTS then e2.parse_peer_id else pure e2
    let e4 ← if e3.type.memList PARSE_MESSAGE_FLAGS_EVENTS then e3.parse_message_flags else pure e3
    let e5 ←
      if e4.type.isMember .CHAT_UPDATE then do
        let e' ← e4.parse_chat_info
        let ut := match VkChatEventType.ofVal e'.type_id with
          | some t => ChatUpdateType.enum t
          | Option.none => ChatUpdateType.raw e'.type_id
        pure { e' with update_type := some ut }
      else if e4.type.isMember .NOTIFICATION_SETTINGS_UPDATE then do
        let vs ← getReq e4.values
        let e' ← dictToAttr e4 vs
        e'.parse_peer_id
      else if e4.type.isMember .PEER_FLAGS_REPLACE then
        e4.parse_peer_flags
      else if e4.type.memList [.MESSAGE_NEW, .MESSAGE_EDIT] then
        e4.parse_message
      else if e4.type.memList [.USER_ONLINE, .USER_OFFLINE] then do
        let u ← getReq e4.user_id
        let ui ← pyToInt u
        MessageEvent.parse_online_status { e4 with user_id := some (.int |ui|) }
      else if e4.type.isMember .USER_RECORDING_VOICE then do
        let u ← getReq e4.user_id
        match u with
        | .list [] => .error .indexError
        | .list (x :: _) => pure { e4 with user_id := some x }
        | _ => pure e4
      else pure e4
    if e5.timestamp.truthy then
      match e5.timestamp with
      | .int i => .ok { e5 with datetime := some (.int i) }
      | .bool b => .ok { e5 with datetime := some (.bool b) }
      | _ => .error .typeError
    else .ok e5

/-!
## Webhook (Callback API) decoder

Embedding of `BotMessageEvent.__init__` (lines 960-1053).
-/

/-- The event object built by `BotMessageEvent.__init__`: the
`MessageEvent` base fields it re-initializes plus the callback-specific
attributes.  `type` holds the raw string tag of the payload. -/
structure BotMessageEvent where
  raw : PyVal
  from_user : PyVal
  from_chat : PyVal
  from_group : PyVal
  from_me : PyVal
  to_me : PyVal
  attachments : PyVal
  attachments_ids : PyVal
  pad_id : PyVal
  keyboard : PyVal
  message_data : PyVal
  message_id : PyVal
  timestamp : PyVal
  peer_id : PyVal
  flags : PyVal
  extra : PyVal
  extra_values : PyVal
  type_id : PyVal
  group_id : PyVal
  fwd_messages : PyVal
  text : PyVal
  state : PyVal
  type : PyVal
  event_id : PyVal
  v : PyVal
  message : PyVal
  conversation_message_id : PyVal
  from_id : PyVal
  client_info : PyVal
  datetime : Option PyVal

/-- The `from_*`/`to_me` classification block of `BotMessageEvent.__init__`
(lines 1019-1028): `peer_id >= 2000000000` is a chat, `peer_id > 0` a
user, `peer_id < 0` a group (and `peer_id == 0` stays unclassified);
skipped entirely when `peer_id is None`. -/
def botClassifyPeer (e : BotMessageEvent) : Except PyErr BotMessageEvent :=
  match e.peer_id with
  | .none => .ok e
  | pv => do
    let p ← pyToInt pv
    if p ≥ 2000000000 then
      .ok { e with from_chat := .bool true }
    else if p > 0 then
      .ok { e with from_user := .bool true }
    else if p < 0 then
      .ok { e with from_group := .bool true }
    else
      .ok e

/-- The `attachments_ids` loop of `BotMessageEvent.__init__`
(lines 1039-1053): for each dict attachment with a truthy `type` tag
that names a present key whose payload is a dict carrying `owner_id` and
`id`, append the `f"{atype}{owner_id}_{media_id}"` token. -/
def botAttachmentIds (atts : List PyVal) : List PyVal :=
  atts.foldl
    (fun acc a =>
      match a with
      | .dict kvs =>
        let atype := (dictLookup kvs "type").getD .none
        let payload :=
          match atype with
          | .str s => if atype.truthy && (dictLookup kvs s).isSome then
              (dictLookup kvs s).getD .none else .none
          | _ => .none
        match payload with
        | .dict pkvs =>
          let owner_id := (dictLookup pkvs "owner_id").getD .none
          let media_id := (dictLookup pkvs "id").getD .none
          if atype.truthy && !owner_id.isNone && !media_id.isNone then
            acc ++ [.str (atype.pyStr ++ owner_id.pyStr ++ "_" ++ media_id.pyStr)]
          else acc
        | _ => acc
      | _ => acc)
    []

/-- Source: `BotMessageEvent.__init__` (lines 960-1053): base-field
re-initialization, extraction of the callback payload by key, the
`datetime` derivation, peer classification, the group-authorship test
(`from_id == -int(group_id)` sets `from_me`), the unconditional
`to_me = True`, and the `attachments_ids` token loop. -/
def botDecode (raw : PyVal) : Except PyErr BotMessageEvent := do
  let type ← raw.get "type"
  let event_id ← raw.get "event_id"
  let v ← raw.get "v"
  let group_id ← raw.get "group_id"
  let obj := pyOr (← raw.get "object") (.dict [])
  let message := pyOr (← obj.get "message") (.dict [])
  let message_id ← message.get "id"
  let peer_id ← message.get "peer_id"
  let conversation_message_id ← message.get "conversation_message_id"
  let from_id ← message.get "from_id"
  let text := pyOr (← message.get "text") (.str "")
  let timestamp ← message.get "date"
  let datetime ←
    if timestamp.truthy then
      match timestamp with
      | .int i => pure (some (PyVal.int i))
      | .bool b => pure (some (PyVal.bool b))
      | _ => Except.error .typeError
    else pure Option.none
  let attachments := pyOr (← message.get "attachments") (.list [])
  let fwd_messages := pyOr (← message.get "fwd_messages") (.list [])
  let client_info := pyOr (← obj.get "client_info") (.dict [])
  let e0 : BotMessageEvent :=
    { raw := raw
      from_user := .bool false, from_chat := .bool false
      from_group := .bool false, from_me := .bool false, to_me := .bool false
      attachments := attachments, attachments_ids := .list []
      pad_id := .none, keyboard := .str "", message_data := .none
      message_id := message_id, timestamp := timestamp, peer_id := peer_id
      flags := .none, extra := .none, extra_values := .none
      type_id := .none, group_id := group_id, fwd_messages := fwd_messages
      text := text, state := .str ""
      type := type, event_id := event_id, v := v, message := message
      conversation_message_id := conversation_message_id, from_id := from_id
      client_info := client_info, datetime := datetime }
  let e1 ← botClassifyPeer e0
  let e2 ←
    if !e1.group_id.isNone && !e1.from_id.isNone then do
      let g ← pyIntCoerce e1.group_id
      if pyEq e1.from_id (.int (-g)) then
        pure { e1 with from_me := PyVal.bool true }
      else pure e1
    else pure e1
  let e3 := { e2 with to_me := PyVal.bool true }
  let attList ←
    match e3.attachments with
    | .list xs => pure xs
    | _ => Except.error .typeError
  .ok { e3 with attachments_ids := .list (botAttachmentIds attList) }

/-!
## Attachment resolution

Embedding of `MessageEvent.normalized_attachments` (lines 853-925).
The four remote calls it performs are modelled as oracles: each one
either raises (`Except.error ()`, an arbitrary exception in the source)
or returns a decoded body.
-/

/-- The remote-call capability used by `normalized_attachments`:
`api.messages.getById(message_ids=..., group_id=...)`,
`api.messages.getById(message_ids=...)`,
`api.photos.getById(photos="oid_iid", photo_sizes=1)` and
`api.docs.getById(docs="oid_iid")`, each returning a decoded body or
raising. -/
structure AttachApi where
  getByIdGroup : Except Unit PyVal
  getById : Except Unit PyVal
  photosGetById : String → Except Unit PyVal
  docsGetById : String → Except Unit PyVal

/-- The inner `_from_messages_getById` (lines 854-863): try the
group-scoped bulk lookup, retry unscoped, give up with `[]`; otherwise
extract `items[0]["attachments"] or []`. -/
def fromMessagesGetById (api : AttachApi) : Except PyErr PyVal := do
  let rOpt : Option PyVal :=
    match api.getByIdGroup with
    | .ok r => some r
    | .error _ =>
      match api.getById with
      | .ok r => some r
      | .error _ => Option.none
  match rOpt with
  | Option.none => .ok (.list [])
  | some r => do
    let items := pyOr (← (pyOr r (.dict [])).get "items") (.list [])
    if items.truthy then
      match items with
      | .list (it0 :: _) => .ok (pyOr (← it0.get "attachments") (.list []))
      | _ => .error .typeError
    else .ok (.list [])

/-- The size comprehension shared by `_map` and the photo branch of the
inline tier (lines 871 and 904-905):
`[{"type": s.get("type"), "url": s.get("url")} for s in sz if s.get("url")]`
— keep only the entries whose `url` is truthy. -/
def mapPhotoSizes : List PyVal → Except PyErr (List PyVal)
  | [] => .ok []
  | s :: rest => do
    let u ← s.get "url"
    if u.truthy then do
      let ty ← s.get "type"
      let tail ← mapPhotoSizes rest
      .ok (PyVal.dict [("type", ty), ("url", u)] :: tail)
    else
      mapPhotoSizes rest

/-- The per-attachment body of `_map`'s loop, over the attachment list
(lines 867-881). -/
def mapAttsGo : List PyVal → Except PyErr (List PyVal)
  | [] => .ok []
  | a :: rest => do
    let t ← a.get "type"
    if pyEq t (.str "photo") then do
      let sz0 := pyOr (← (pyOr (← a.get "photo") (.dict [])).get "sizes") (.list [])
      let szl ← match sz0 with
        | .list l => pure l
        | _ => Except.error .typeError
      let sz ← mapPhotoSizes szl
      let tail ← mapAttsGo rest
      if !sz.isEmpty then
        .ok (PyVal.dict [("type", .str "photo"),
                         ("photo", .dict [("sizes", .list sz)])] :: tail)
      else .ok tail
    else if pyEq t (.str "doc") then do
      let d := pyOr (← a.get "doc") (.dict [])
      let title ← d.getD "title" (.str "")
      let ext ← d.getD "ext" (.str "")
      let url ← d.getD "url" (.str "")
      let date ← d.getD "date" (.int 0)
      let tail ← mapAttsGo rest
      .ok (PyVal.dict [("type", .str "doc"), ("doc", .dict
        [("title", title), ("ext", ext), ("url", url), ("date", date)])] :: tail)
    else mapAttsGo rest

/-- The inner `_map` (lines 865-882): photos map to their url-bearing
size entries (an entirely url-less photo contributes nothing); docs map
to a `{title, ext, url, date}` record; other kinds are dropped. -/
def mapAtts (atts : PyVal) : Except PyErr (List PyVal) :=
  match pyOr atts (.list []) with
  | .list l => mapAttsGo l
  | _ => Except.error .typeError

/-- The body of the photo branch's `try` (lines 901-907): the per-item
photo lookup and its size mapping; any error here is caught by the
caller's `except: pass`. -/
def photoLookupBody (api : AttachApi) (oid iid : String) : Except PyErr (List PyVal) := do
  let ph ← match api.photosGetById (oid ++ "_" ++ iid) with
    | .ok ph => pure ph
    | .error _ => Except.error .typeError
  if ph.truthy then do
    let ph0 ← match ph with
      | .list (x :: _) => pure x
      | .list [] => Except.error .indexError
      | _ => Except.error .typeError
    let szv ← ph0.getD "sizes" (.list [])
    let szl ← match szv with
      | .list l => pure l
      | _ => Except.error .typeError
    let sz ← mapPhotoSizes szl
    if !sz.isEmpty then
      pure [PyVal.dict [("type", .str "photo"),
                        ("photo", .dict [("sizes", .list sz)])]]
    else pure []
  else pure []

/-- The body of the doc branch's `try` (lines 911-920). -/
def docLookupBody (api : AttachApi) (oid iid : String) : Except PyErr (List PyVal) := do
  let d ← match api.docsGetById (oid ++ "_" ++ iid) with
    | .ok d => pure d
    | .error _ => Except.error .typeError
  if d.truthy then do
    let d0 ← match d with
      | .list (x :: _) => pure x
      | .list [] => Except.error .indexError
      | _ => Except.error .typeError
    let title ← d0.getD "title" (.str "")
    let ext ← d0.getD "ext" (.str "")
    let url ← d0.getD "url" (.str "")
    let date ← d0.getD "date" (.int 0)
    pure [PyVal.dict [("type", .str "doc"), ("doc", .dict
      [("title", title), ("ext", ext), ("url", url), ("date", date)])]]
  else pure []

/-- Fuel bound for the inline-token `while` loop: every iteration
requires the distinct key `attach{i}` to be present, so a dict with `n`
keys sustains at most `n` iterations (a non-dict either fails the
membership test or raises inside the first body). -/
def exKeyCount : PyVal → Nat
  | .dict kvs => kvs.length
  | _ => 0

/-- The inline-token `while` loop of `normalized_attachments`
(lines 889-923): while both `attach{i}` and `attach{i}_type` exist,
split the token at its first underscore (a splitless token advances `i`
and continues), run the kind-selected per-item lookup with its failures
swallowed (`except: pass`), and advance `i`. -/
def inlineGo (api : AttachApi) (ex : PyVal) : Nat → Nat → List PyVal → Except PyErr (List PyVal)
  | 0, _, norm => .ok norm
  | fuel + 1, i, norm => do
    let c1 ← pyContains ex s!"attach{i}"
    if c1 then do
      let c2 ← pyContains ex s!"attach{i}_type"
      if c2 then do
        let tokv ← pySubscr ex s!"attach{i}"
        let token := tokv.pyStr
        let tp ← pySubscr ex s!"attach{i}_type"
        match splitOnceUnderscore token with
        | Option.none => inlineGo api ex fuel (i + 1) norm
        | some (oid, iid) =>
          let adds :=
            if pyEq tp (.str "photo") then
              match photoLookupBody api oid iid with
              | .ok l => l
              | .error _ => []
            else if pyEq tp (.str "doc") then
              match docLookupBody api oid iid with
              | .ok l => l
              | .error _ => []
            else []
          inlineGo api ex fuel (i + 1) (norm ++ adds)
      else .ok norm
    else .ok norm

/-- Tier 2 of `normalized_attachments`: the inline-token loop started at
index 1 over `ex = self.extra_values or {}` (lines 888-925). -/
def inlineTier (api : AttachApi) (ex : PyVal) : Except PyErr (List PyVal) :=
  inlineGo api ex (exKeyCount ex + 1) 1 []

/-- Source: `MessageEvent.normalized_attachments` (lines 853-925): the bulk tier
(`_map` over `_from_messages_getById`) wins when non-empty; otherwise
the inline-token tier runs; an empty result is returned as an empty
list, not an error. -/
def normalizedAttachments (api : AttachApi) (e : MessageEvent) : Except PyErr (List PyVal) := do
  let got ← mapAtts (← fromMessagesGetById api)
  if !got.isEmpty then
    .ok got
  else
    inlineTier api (pyOr e.extra_values (.dict []))

/-!
## Concrete fixtures

Concrete states, responses and raw payloads used by the witness and
counterexample theorems below.
-/

/-- A complete handoff response. -/
def handoffOk : HandoffResp :=
  { server := some "srv", key := some "k", ts := some 1, pts := Option.none }

/-- The established session state reached from a fresh session by one
complete handoff. -/
def sEstablished : LPState := (getLongPollServerU initState handoffOk).1

/-- A poll response body with `failed: 4` (fatal protocol mismatch). -/
def failed4Resp : GetResp :=
  { status := 200, failed := some 4, ts := Option.none, updates := [] }

/-- A poll response body with `failed: 2` (session invalidation). -/
def failed2Resp : GetResp :=
  { status := 200, failed := some 2, ts := Option.none, updates := [] }

/-- A soft-resync poll response body, `{failed: 1, ts: 100}`. -/
def softResp : GetResp :=
  { status := 200, failed := some 1, ts := some 100, updates := [] }

/-- A successful poll response body, `{ts: 105, updates: [...]}`. -/
def okResp : GetResp :=
  { status := 200, failed := Option.none, ts := some 105, updates := [.list [.int 4]] }

/-- A response script of `n` soft resyncs followed by one success. -/
def softScript (n : Nat) : List GetResp := List.replicate n softResp ++ [okResp]

/-- A minimal raw `MESSAGE_NEW` array with the given peer id:
`[4, message_id, flags, peer_id, timestamp, text]`. -/
def arrMsgRaw (p : Int) : List PyVal :=
  [.int 4, .int 1, .int 0, .int p, .int 0, .str ""]

/-- A minimal webhook `message_new` payload with the given peer id and
sender id, for group 1. -/
def botMsgRaw (p fromId : Int) : PyVal :=
  .dict [("type", .str "message_new"), ("group_id", .int 1),
         ("object", .dict [("message", .dict
           [("id", .int 1), ("peer_id", .int p), ("from_id", .int fromId),
            ("text", .str "hi"), ("date", .int 0)])])]

/-- A freshly re-initialized webhook event carrying only a peer id, as
`BotMessageEvent.__init__` has built it right before its classification
block (lines 1019-1028). -/
def botProbe (p : Int) : BotMessageEvent where
  raw := .none
  from_user := .bool false
  from_chat := .bool false
  from_group := .bool false
  from_me := .bool false
  to_me := .bool false
  attachments := .list []
  attachments_ids := .list []
  pad_id := .none
  keyboard := .str ""
  message_data := .none
  message_id := .none
  timestamp := .none
  peer_id := .int p
  flags := .none
  extra := .none
  extra_values := .none
  type_id := .none
  group_id := .none
  fwd_messages := .list []
  text := .str ""
  state := .str ""
  type := .str "message_new"
  event_id := .none
  v := .none
  message := .dict []
  conversation_message_id := .none
  from_id := .none
  client_info := .dict []
  datetime := Option.none

/-- A platform photo attachment object wrapping the given size list. -/
def photoAtt (sizes : List PyVal) : PyVal :=
  .dict [("type", .str "photo"), ("photo", .dict [("sizes", .list sizes)])]

/-- A size entry with no `url` key. -/
def urlLessSize : PyVal := .dict [("type", .str "m")]

/-- An attachment api whose bulk lookup returns one photo attachment
with the given sizes and whose per-item lookups all fail. -/
def apiBulkPhoto (sizes : List PyVal) : AttachApi where
  getByIdGroup :=
    .ok (.dict [("items", .list [.dict [("attachments", .list [photoAtt sizes])]])])
  getById := .error ()
  photosGetById := fun _ => .error ()
  docsGetById := fun _ => .error ()

/-!
## Helper lemmas
-/

/-- Every message-flag value is the power of two at its bit position. -/
theorem VkMessageFlag.value_eq_two_pow (x : VkMessageFlag) : x.value = 2 ^ x.bit := by
  cases x <;> rfl

/-- Completeness of the member list of `VkMessageFlag`. -/
theorem VkMessageFlag.mem_all (x : VkMessageFlag) : x ∈ VkMessageFlag.all := by
  cases x <;> simp [VkMessageFlag.all]

/-- Integer bitwise-and agrees with the natural one on non-negative
values. -/
theorem land_natCast (a b : Nat) : ((a : Int).land (b : Nat)) = ((a &&& b : Nat) : Int) := rfl

/-- A bitwise-and with a single power of two is all or nothing. -/
theorem and_two_pow_cases (f k : Nat) : f &&& 2 ^ k = 0 ∨ f &&& 2 ^ k = 2 ^ k := by
  rw [Nat.and_two_pow]
  cases h : f.testBit k <;> simp

/-- The filter condition of `msgFlagsOf` on a non-negative flags value,
read at the level of naturals. -/
theorem msgFlag_filter_cond (f : Nat) (x : VkMessageFlag) :
    (((f : Int).land (x.value : Nat) != 0) = true) ↔ f &&& x.value ≠ 0 := by
  rw [land_natCast]
  simp [Int.natCast_eq_zero]

/-- Membership in the decomposed flag set is exactly the corresponding
bit of the flags value. -/
theorem mem_msgFlagsOf (f : Nat) (x : VkMessageFlag) :
    x ∈ msgFlagsOf (f : Int) ↔ f.testBit x.bit = true := by
  rw [msgFlagsOf, List.mem_filter]
  rw [msgFlag_filter_cond]
  constructor
  · rintro ⟨-, h⟩
    rw [VkMessageFlag.value_eq_two_pow, Nat.and_two_pow] at h
    cases hb : f.testBit x.bit
    · rw [hb] at h; simp at h
    · rfl
  · intro h
    refine ⟨VkMessageFlag.mem_all x, ?_⟩
    rw [VkMessageFlag.value_eq_two_pow, Nat.and_two_pow, h]
    simp

/-- Folding bitwise-or over the filtered members equals masking the
flags value with the fold over all members. -/
theorem foldr_or_filter (f : Nat) (L : List VkMessageFlag) :
    (L.filter (fun x => (f : Int).land (x.value : Nat) != 0)).foldr
        (fun x a => x.value ||| a) 0
      = f &&& L.foldr (fun x a => x.value ||| a) 0 := by
  induction L with
  | nil => simp
  | cons x L ih =>
    rw [List.foldr_cons, Nat.and_or_distrib_left]
    have hcases : f &&& x.value = 0 ∨ f &&& x.value = x.value := by
      rw [VkMessageFlag.value_eq_two_pow x]
      exact and_two_pow_cases f x.bit
    by_cases h : f &&& x.value ≠ 0
    · have hcond : ((f : Int).land (x.value : Nat) != 0) = true :=
        (msgFlag_filter_cond f x).mpr h
      have hv : f &&& x.value = x.value := by
        rcases hcases with h0 | h1
        · exact absurd h0 h
        · exact h1
      simp only [List.filter_cons, hcond, if_true, List.foldr_cons, ih, hv]
    · push_neg at h
      have hcond : ((f : Int).land (x.value : Nat) != 0) = false := by
        rw [Bool.eq_false_iff]
        intro hx
        exact absurd ((msgFlag_filter_cond f x).mp hx) (by simpa using h)
      simp only [List.filter_cons, hcond, if_false, Bool.false_eq_true, ih, h]
      simp

/-- Looking up a member value of `VkEventType` always succeeds. -/
theorem ofInt_code_isSome (t : VkEventType) : (VkEventType.ofInt t.code).isSome = true := by
  cases t <;> rfl

/-- A raw type code that failed the `VkEventType` lookup equals no
member under Python `==`, hence `in` any member list is false. -/
theorem memList_raw_false (v : PyVal) (h : VkEventType.ofCode v = Option.none)
    (L : List VkEventType) : EType.memList (.raw v) L = false := by
  rw [EType.memList, List.any_eq_false]
  intro t _
  cases v with
  | int i =>
    by_cases hc : i = t.code
    · exfalso
      rw [VkEventType.ofCode, hc] at h
      have := ofInt_code_isSome t
      rw [h] at this
      simp at this
    · simp [pyEq, hc]
  | bool b =>
    by_cases hc : (if b then (1 : Int) else 0) = t.code
    · exfalso
      rw [VkEventType.ofCode, hc] at h
      have := ofInt_code_isSome t
      rw [h] at this
      simp at this
    · simp [pyEq, hc]
  | none => simp [pyEq]
  | str s => simp [pyEq]
  | list xs => simp [pyEq]
  | dict kvs => simp [pyEq]

/-- One classification pass never touches the session key. -/
theorem classifyStep_key (s : LPState) (r : GetResp) : (classifyStep s r).1.key = s.key := by
  simp only [classifyStep]
  split
  · rfl
  · split
    · split <;> rfl
    · split
      · split <;> rfl
      · split <;> rfl

/-- One classification pass either keeps the endpoint or clears it. -/
theorem classifyStep_base_url (s : LPState) (r : GetResp) :
    (classifyStep s r).1.base_url = s.base_url ∨
    (classifyStep s r).1.base_url = Option.none := by
  simp only [classifyStep]
  split
  · exact Or.inl rfl
  · split
    · split <;> exact Or.inl rfl
    · split
      · split <;> exact Or.inl rfl
      · split
        · exact Or.inl rfl
        · exact Or.inr rfl

/-- Running `wait` on a soft-resync script from an established state
takes exactly one line-94 re-entry per soft failure. -/
theorem wait_soft_repeats : ∀ (n : Nat) (s : LPState), s.base_url.isSome = true →
    (wait [] (softScript n) s).repeats = n := by
  intro n
  induction n with
  | zero =>
    intro s h
    match hu : s.base_url with
    | some u =>
      rw [softScript, List.replicate, List.nil_append, wait.eq_def]
      simp only [handoffPhase, hu, classifyStep, okResp]
      simp
    | Option.none => rw [hu] at h; simp at h
  | succ n ih =>
    intro s h
    match hu : s.base_url with
    | some u =>
      have hrepl : softScript (n + 1) = softResp :: softScript n := by
        simp [softScript, List.replicate_succ]
      rw [hrepl, wait.eq_def]
      simp only [handoffPhase, hu, classifyStep, softResp]
      norm_num
      simp only [reduceCtorEq, reduceIte]
      rw [ih { pts := s.pts, ts := some 100, key := s.key, base_url := some u } (by simp)]
    | Option.none => rw [hu] at h; simp at h

/-- Python `or` with an empty-list default is the identity on lists. -/
theorem pyOr_list_nil (xs : List PyVal) : pyOr (.list xs) (.list []) = .list xs := by
  cases xs <;> rfl

/-- The size comprehension yields nothing when no size entry has a
truthy url. -/
theorem mapPhotoSizes_no_url (sizes : List PyVal)
    (hsz : ∀ s ∈ sizes, ∃ kvs, s = PyVal.dict kvs ∧
      ((dictLookup kvs "url").getD .none).truthy = false) :
    mapPhotoSizes sizes = .ok [] := by
  induction sizes with
  | nil => rfl
  | cons s rest ih =>
    obtain ⟨kvs, hs, hurl⟩ := hsz s (by simp)
    rw [mapPhotoSizes, hs]
    simp [PyVal.get, hurl, bind, Except.bind,
      ih (fun x hx => hsz x (by simp [hx]))]

/-- For `MESSAGE_NEW`, `_parse_message` sets exactly the direction flag
selected by the outbox bit (given the freshly initialized flags). -/
theorem parse_message_direction (e : MessageEvent) (f : Int) (t : String)
    (ht : e.type.isMember .MESSAGE_NEW = true)
    (hm : e.from_me = .bool false) (hto : e.to_me = .bool false)
    (hf : e.flags = .int f) (htx : e.text = .str t) :
    ∃ e', e.parse_message = .ok e' ∧
      (f.land 2 ≠ 0 → e'.from_me = .bool true ∧ e'.to_me = .bool false) ∧
      (f.land 2 = 0 → e'.to_me = .bool true ∧ e'.from_me = .bool false) := by
  by_cases hb : f.land 2 = 0
  · refine ⟨{ e with to_me := PyVal.bool true, text := .str (pyReplace t "<br>" "\n"), message := some (.str (pyReplace (pyReplace (pyReplace (pyReplace (pyReplace t "<br>" "\n") "&lt;" "<") "&gt;" ">") "&quot;" "\"") "&amp;" "&")) }, ?_, fun hx => absurd hb hx, fun _ => ⟨rfl, hm⟩⟩
    simp [MessageEvent.parse_message, ht, hf, htx, pyToInt, hb, bind, Except.bind,
      pure, Except.pure, VkMessageFlag.value, Nat.cast_ofNat]
  · refine ⟨{ e with from_me := PyVal.bool true, text := .str (pyReplace t "<br>" "\n"), message := some (.str (pyReplace (pyReplace (pyReplace (pyReplace (pyReplace t "<br>" "\n") "&lt;" "<") "&gt;" ">") "&quot;" "\"") "&amp;" "&")) }, ?_, fun _ => ⟨rfl, hto⟩, fun hx => absurd hx hb⟩
    simp [MessageEvent.parse_message, ht, hf, htx, pyToInt, hb, bind, Except.bind,
      pure, Except.pure, VkMessageFlag.value, Nat.cast_ofNat]

/-- Every successfully decoded webhook event has `to_me` set: line 1036
runs unconditionally before the `attachments_ids` loop, which never
touches `to_me`. -/
theorem botDecode_to_me (raw : PyVal) (e : BotMessageEvent)
    (h : botDecode raw = .ok e) : e.to_me = .bool true := by
  simp only [botDecode, bind, Except.bind, pure, Except.pure] at h
  repeat' (split at h)
  all_goals (first | (injection h; rename_i h2; subst h2; rfl) | injection h)

/-!
## Claim theorems
-/

/-- C1 (counterexample): from the established state, polling a
`{failed: 4}` response raises the version error but leaves the endpoint
set (`base_url` still `https://srv`), contradicting the claim that the
endpoint is unset on the next observation. -/
theorem C1_version_error_counterexample :
    (wait [] [failed4Resp] sEstablished).outcome = PollOutcome.version ∧
    (wait [] [failed4Resp] sEstablished).state.base_url = some "https://srv" := by
  constructor <;> rfl

/-- C1 (amended): for every established session, a `{failed: 4}`
response makes `wait` raise the version error with no repetition and no
handoff call, leaving the whole session state — including the endpoint —
unchanged, so a subsequent `poll()` would reuse the endpoint rather than
perform a fresh handoff. -/
theorem C1_version_error_keeps_endpoint (s : LPState) (u : String)
    (hs : List HandoffResp) (rest : List GetResp) (r : GetResp)
    (hurl : s.base_url = some u) (hst : r.status ≠ 403) (hf : r.failed = some 4) :
    wait hs (r :: rest) s =
      { state := s, outcome := .version, repeats := 0, handoffCalls := 0 } := by
  rw [wait.eq_def]
  simp only [handoffPhase, hurl, classifyStep, hst, hf]
  simp

/-- C1 (witness): the amended statement evaluated at the established
state and the concrete `{failed: 4}` response. -/
theorem C1_version_error_keeps_endpoint_witness :
    wait [] [failed4Resp] sEstablished =
      { state := sEstablished, outcome := .version, repeats := 0, handoffCalls := 0 } :=
  C1_version_error_keeps_endpoint sEstablished "https://srv" [] [] failed4Resp
    rfl (by decide) rfl

/-- C2: from an established session, a `{failed: 1, ts: 100}` response
followed by a successful `{ts: 105, updates: [...]}` response yields the
second response to the caller with final cursor 105, exactly one soft
resync repetition, and no handoff call. -/
theorem C2_soft_resync_then_success (s : LPState) (u : String)
    (hs : List HandoffResp) (r1 r2 : GetResp)
    (hurl : s.base_url = some u)
    (h1s : r1.status ≠ 403) (h1f : r1.failed = some 1) (h1t : r1.ts = some 100)
    (h2s : r2.status ≠ 403) (h2f : r2.failed = Option.none) (h2t : r2.ts = some 105) :
    wait hs [r1, r2] s =
      { state := { s with ts := some 105 }, outcome := .polled r2,
        repeats := 1, handoffCalls := 0 } := by
  rw [wait.eq_def]
  simp only [handoffPhase, hurl, classifyStep, h1s, h1f, h1t]
  simp only [reduceCtorEq, or_self, if_false, reduceIte, if_neg, Option.some.injEq]
  norm_num
  rw [wait.eq_def]
  simp only [handoffPhase, classifyStep, h2s, h2f, h2t]
  simp

/-- C2 (witness): the statement evaluated at the established state and
the concrete response pair. -/
theorem C2_soft_resync_then_success_witness :
    wait [] [softResp, okResp] sEstablished =
      { state := { sEstablished with ts := some 105 }, outcome := .polled okResp,
        repeats := 1, handoffCalls := 0 } :=
  C2_soft_resync_then_success sEstablished "https://srv" [] softResp okResp
    rfl (by decide) rfl rfl (by decide) rfl rfl

/-- C3 (counterexample): the state reached from the established state by
one session-invalidation pass is reachable, has no endpoint, yet still
holds the key — so endpoint and key are not both present or both
absent. -/
theorem C3_invariant_counterexample :
    Reachable (classifyStep sEstablished failed2Resp).1 ∧
    (classifyStep sEstablished failed2Resp).1.base_url = Option.none ∧
    (classifyStep sEstablished failed2Resp).1.key = some "k" := by
  refine ⟨Reachable.step _ _ (Reachable.handoff _ _ Reachable.init), ?_, ?_⟩ <;> rfl

/-- C3 (amended): in every reachable session state, a present endpoint
implies a present key; session invalidation clears only the endpoint,
so the converse direction of the claimed invariant does not hold. -/
theorem C3_endpoint_implies_key :
    ∀ s : LPState, Reachable s → s.base_url.isSome = true → s.key.isSome = true := by
  intro s h
  induction h with
  | init => intro hb; simp [initState] at hb
  | handoff s r _ ih =>
    intro hb
    simp only [getLongPollServerU] at hb ⊢
    cases hts : r.ts with
    | none => simp only [hts] at hb ⊢; exact ih hb
    | some t =>
      cases hk : r.key with
      | none => simp only [hts, hk] at hb ⊢; exact ih hb
      | some k =>
        cases hsv : r.server with
        | none => simp [hts, hk, hsv]
        | some sv => simp [hts, hk, hsv]
  | step s r _ ih =>
    intro hb
    rw [classifyStep_key]
    rcases classifyStep_base_url s r with h1 | h1
    · exact ih (h1 ▸ hb)
    · rw [h1] at hb; simp at hb

/-- C3 (witness): the amended statement evaluated at the established
state. -/
theorem C3_endpoint_implies_key_witness : sEstablished.key.isSome = true :=
  C3_endpoint_implies_key sEstablished
    (Reachable.handoff initState handoffOk Reachable.init) rfl

/-- C4: the peer classifier splits every integer peer id into exactly
one of the three classes: negative ids are groups (id `|p|`), ids above
the chat threshold are chats (id `p - CHAT_START_ID`), and the rest are
users (id `p`), starting from the decoder's freshly initialized
classification flags. -/
theorem C4_peer_classification (e : MessageEvent) (p : Int)
    (hp : e.peer_id = .int p)
    (hu : e.from_user = .bool false) (hc : e.from_chat = .bool false)
    (hg : e.from_group = .bool false) (hx : e.extra_values = .none) :
    ∃ e', e.parse_peer_id = .ok e' ∧
      (p < 0 → e'.from_group = .bool true ∧ e'.from_chat = .bool false ∧
        e'.from_user = .bool false ∧ e'.group_id = .int |p|) ∧
      (p > CHAT_START_ID → e'.from_chat = .bool true ∧ e'.from_group = .bool false ∧
        e'.from_user = .bool false ∧ e'.chat_id = some (.int (p - CHAT_START_ID))) ∧
      (0 ≤ p → p ≤ CHAT_START_ID → e'.from_user = .bool true ∧ e'.from_chat = .bool false ∧
        e'.from_group = .bool false ∧ e'.user_id = some (.int p)) := by
  by_cases h1 : p < 0
  · refine ⟨{ e with from_group := .bool true, group_id := .int |p| }, ?_, ?_, ?_, ?_⟩
    · simp [MessageEvent.parse_peer_id, hp, pyToInt, h1, bind, Except.bind]
    · exact fun _ => ⟨rfl, hc, hu, rfl⟩
    · intro h2; exfalso; rw [CHAT_START_ID] at h2; omega
    · intro h2 _; exfalso; omega
  · by_cases h2 : p > CHAT_START_ID
    · refine ⟨{ e with from_chat := .bool true, chat_id := some (.int (p - CHAT_START_ID)) },
        ?_, ?_, ?_, ?_⟩
      · simp [MessageEvent.parse_peer_id, hp, pyToInt, h1, h2, hx, PyVal.truthy,
          bind, Except.bind]
      · intro h3; exact absurd h3 h1
      · exact fun _ => ⟨rfl, hg, hu, rfl⟩
      · intro _ h4; exfalso; omega
    · refine ⟨{ e with from_user := .bool true, user_id := some (e.peer_id) }, ?_, ?_, ?_, ?_⟩
      · simp [MessageEvent.parse_peer_id, hp, pyToInt, h1, h2, bind, Except.bind]
      · intro h3; exact absurd h3 h1
      · intro h3; exact absurd h3 h2
      · exact fun _ _ => ⟨rfl, hc, hg, by rw [hp]⟩

/-- C4 (witness): the statement evaluated on a fresh event with peer id
`-5`, extracting the group classification. -/
theorem C4_peer_classification_witness :
    ∃ e', ({ initEvent [] with peer_id := .int (-5) } : MessageEvent).parse_peer_id = .ok e' ∧
      e'.from_group = .bool true ∧ e'.from_chat = .bool false ∧
      e'.from_user = .bool false ∧ e'.group_id = .int 5 := by
  obtain ⟨e', hok, hgr, -, -⟩ :=
    C4_peer_classification { initEvent [] with peer_id := .int (-5) } (-5)
      rfl rfl rfl rfl rfl
  exact ⟨e', hok, hgr (by decide)⟩

/-- C5: for every non-negative flag integer, the decomposed message-flag
set contains exactly the enumeration members whose bit is set in the
flags value, and folding bitwise-or over the decomposed set reproduces
the flags value restricted to the bits present in the enumeration. -/
theorem C5_flag_decomposition (f : Nat) :
    (∀ x : VkMessageFlag, x ∈ msgFlagsOf (f : Int) ↔ f.testBit x.bit = true) ∧
    (msgFlagsOf (f : Int)).foldr (fun x a => x.value ||| a) 0
      = f &&& VkMessageFlag.all.foldr (fun x a => x.value ||| a) 0 :=
  ⟨fun x => mem_msgFlagsOf f x, foldr_or_filter f VkMessageFlag.all⟩

/-- C6: decoding an array whose leading element is not a recognized type
code does not fail: it yields exactly the freshly initialized event with
the raw code preserved verbatim as its kind and the input array stored
verbatim, with no positional decoding and no parse pass applied. -/
theorem C6_unknown_type_code (v : PyVal) (rest : List PyVal)
    (h : VkEventType.ofCode v = Option.none) :
    decodeArrayEvent (v :: rest) =
      .ok { initEvent (v :: rest) with type := .raw v } := by
  simp [decodeArrayEvent, h, memList_raw_false v h, EType.isMember, initEvent,
    PyVal.truthy, bind, Except.bind, pure, Except.pure]

/-- C6 (witness): the statement evaluated on an unrecognized string type
code. -/
theorem C6_unknown_type_code_witness :
    decodeArrayEvent [PyVal.str "unknown", PyVal.int 5] =
      .ok { initEvent [PyVal.str "unknown", PyVal.int 5] with
              type := .raw (.str "unknown") } :=
  C6_unknown_type_code (.str "unknown") [PyVal.int 5] rfl

/-- C7 (counterexample): at the boundary peer id 2000000000 the two
decoders disagree: the array decoder (strict `>`) classifies it as a
user while the webhook decoder (`>=`) classifies it as a chat. -/
theorem C7_boundary_counterexample :
    (decodeArrayEvent (arrMsgRaw 2000000000)).map (fun e => (e.from_user, e.from_chat)) =
      .ok (.bool true, .bool false) ∧
    (botDecode (botMsgRaw 2000000000 2)).map (fun e => (e.from_user, e.from_chat)) =
      .ok (.bool false, .bool true) := ⟨rfl, rfl⟩

/-- C7 (amended): the two peer classifiers agree on the open regions —
negative ids are groups, ids strictly between 0 and the threshold are
users, ids strictly above the threshold are chats — but diverge at the
boundaries: at `p = CHAT_START_ID` the array decoder says user and the
webhook decoder says chat, and at `p = 0` the array decoder says user
while the webhook decoder leaves the event unclassified (and it derives
no chat id in any case). -/
theorem C7_classification_agreement (p : Int) (me : MessageEvent) (be : BotMessageEvent)
    (h1 : me.peer_id = .int p) (h2 : me.from_user = .bool false)
    (h3 : me.from_chat = .bool false) (h4 : me.from_group = .bool false)
    (h5 : me.extra_values = .none)
    (h6 : be.peer_id = .int p) (h7 : be.from_user = .bool false)
    (h8 : be.from_chat = .bool false) (h9 : be.from_group = .bool false) :
    ∃ me' be', me.parse_peer_id = .ok me' ∧ botClassifyPeer be = .ok be' ∧
      (p < 0 →
        (me'.from_user, me'.from_chat, me'.from_group) = (.bool false, .bool false, .bool true) ∧
        (be'.from_user, be'.from_chat, be'.from_group) = (.bool false, .bool false, .bool true)) ∧
      (0 < p → p < CHAT_START_ID →
        (me'.from_user, me'.from_chat, me'.from_group) = (.bool true, .bool false, .bool false) ∧
        (be'.from_user, be'.from_chat, be'.from_group) = (.bool true, .bool false, .bool false)) ∧
      (CHAT_START_ID < p →
        (me'.from_user, me'.from_chat, me'.from_group) = (.bool false, .bool true, .bool false) ∧
        (be'.from_user, be'.from_chat, be'.from_group) = (.bool false, .bool true, .bool false)) ∧
      (p = CHAT_START_ID →
        (me'.from_user, me'.from_chat, me'.from_group) = (.bool true, .bool false, .bool false) ∧
        (be'.from_user, be'.from_chat, be'.from_group) = (.bool false, .bool true, .bool false)) ∧
      (p = 0 →
        (me'.from_user, me'.from_chat, me'.from_group) = (.bool true, .bool false, .bool false) ∧
        (be'.from_user, be'.from_chat, be'.from_group) = (.bool false, .bool false, .bool false)) := by
  have hT : CHAT_START_ID = (2000000000 : Int) := rfl
  by_cases hneg : p < 0
  · refine ⟨{ me with from_group := .bool true, group_id := .int |p| }, { be with from_group := .bool true }, ?_, ?_, ?_, ?_, ?_, ?_, ?_⟩
    · simp [MessageEvent.parse_peer_id, h1, pyToInt, hneg, bind, Except.bind]
    · simp [botClassifyPeer, h6, pyToInt, bind, Except.bind,
        show ¬(p ≥ 2000000000) by omega, show ¬(p > 0) by omega, hneg]
    · exact fun _ => ⟨by simp [h2, h3], by simp [h7, h8]⟩
    · intro hx; omega
    · intro hx; rw [hT] at hx; exfalso; omega
    · intro hx; rw [hT] at hx; exfalso; omega
    · intro hx; exfalso; omega
  · by_cases hchat : p > CHAT_START_ID
    · refine ⟨{ me with from_chat := .bool true, chat_id := some (.int (p - CHAT_START_ID)) }, { be with from_chat := .bool true }, ?_, ?_, ?_, ?_, ?_, ?_, ?_⟩
      · simp [MessageEvent.parse_peer_id, h1, pyToInt, hneg, hchat, h5, PyVal.truthy,
          bind, Except.bind]
      · rw [hT] at hchat
        simp [botClassifyPeer, h6, pyToInt, bind, Except.bind, show p ≥ 2000000000 by omega]
      · intro hx; exact absurd hx hneg
      · intro _ hx; rw [hT] at hx; rw [hT] at hchat; exfalso; omega
      · exact fun _ => ⟨by simp [h2, h4], by simp [h7, h9]⟩
      · intro hx; rw [hT] at hchat; rw [hx, hT] at hchat; exfalso; omega
      · intro hx; rw [hT] at hchat; rw [hx] at hchat; exfalso; omega
    · by_cases hzero : p = 0
      · refine ⟨{ me with from_user := .bool true, user_id := some (me.peer_id) }, be, ?_, ?_, ?_, ?_, ?_, ?_, ?_⟩
        · simp [MessageEvent.parse_peer_id, h1, pyToInt, hneg, hchat, bind, Except.bind]
        · simp [botClassifyPeer, h6, pyToInt, bind, Except.bind, hzero]
        · intro hx; exfalso; omega
        · intro hx; exfalso; omega
        · intro hx; rw [hT] at hx; exfalso; omega
        · intro hx; rw [hx, hT] at hzero; exfalso; omega
        · exact fun _ => ⟨by simp [h3, h4], by simp [h7, h8, h9]⟩
      · by_cases hbound : p = CHAT_START_ID
        · refine ⟨{ me with from_user := .bool true, user_id := some (me.peer_id) }, { be with from_chat := .bool true }, ?_, ?_, ?_, ?_, ?_, ?_, ?_⟩
          · simp [MessageEvent.parse_peer_id, h1, pyToInt, hneg, hchat, bind, Except.bind]
          · rw [hbound, hT] at h6
            simp [botClassifyPeer, h6, pyToInt, bind, Except.bind]
          · intro hx; rw [hbound, hT] at hx; exfalso; omega
          · intro _ hx; rw [hbound] at hx; exfalso; omega
          · intro hx; rw [hbound] at hx; exfalso; omega
          · exact fun _ => ⟨by simp [h3, h4], by simp [h7, h9]⟩
          · intro hx; rw [hx, hT] at hbound; exfalso; omega
        · refine ⟨{ me with from_user := .bool true, user_id := some (me.peer_id) }, { be with from_user := .bool true }, ?_, ?_, ?_, ?_, ?_, ?_, ?_⟩
          · simp [MessageEvent.parse_peer_id, h1, pyToInt, hneg, hchat, bind, Except.bind]
          · rw [hT] at hchat hbound
            simp [botClassifyPeer, h6, pyToInt, bind, Except.bind,
              show ¬(p ≥ 2000000000) by omega, show p > 0 by omega]
          · intro hx; exact absurd hx hneg
          · exact fun _ _ => ⟨by simp [h3, h4], by simp [h8, h9]⟩
          · intro hx; exact absurd hx hchat
          · intro hx; exact absurd hx hbound
          · intro hx; exact absurd hx hzero

/-- C7 (witness): the amended statement evaluated at peer id `-3` on a
fresh array event and a fresh webhook event, extracting the agreeing
group classifications. -/
theorem C7_classification_agreement_witness :
    ∃ me' be', ({ initEvent [] with peer_id := .int (-3) } : MessageEvent).parse_peer_id = .ok me' ∧
      botClassifyPeer (botProbe (-3)) = .ok be' ∧
      (me'.from_user, me'.from_chat, me'.from_group) = (.bool false, .bool false, .bool true) ∧
      (be'.from_user, be'.from_chat, be'.from_group) = (.bool false, .bool false, .bool true) := by
  obtain ⟨me', be', hok1, hok2, hneg, -, -, -, -⟩ :=
    C7_classification_agreement (-3) { initEvent [] with peer_id := .int (-3) }
      (botProbe (-3)) rfl rfl rfl rfl rfl rfl rfl rfl rfl
  obtain ⟨ha, hb⟩ := hneg (by decide)
  exact ⟨me', be', hok1, hok2, ha, hb⟩

/-- C8 (counterexample): a webhook `message_new` whose sender is the
group itself (`from_id = -group_id`) decodes with both `from_me` and
`to_me` true — the claimed exclusivity fails for the webhook decoder. -/
theorem C8_direction_counterexample :
    (botDecode (botMsgRaw 55 (-1))).map (fun e => (e.from_me, e.to_me)) =
      .ok (.bool true, .bool true) := rfl

/-- C8 (amended): for array-decoded new-message events the outbox bit of
the flags value selects exactly one of `from_me`/`to_me`; the webhook
decoder instead sets `to_me` on every event it decodes (and may set
`from_me` as well when the sender is the group itself), so the
exclusivity holds only for the array decoder. -/
theorem C8_direction_flags :
    (∀ (e : MessageEvent) (f : Int) (t : String),
      e.type.isMember .MESSAGE_NEW = true → e.from_me = .bool false →
      e.to_me = .bool false → e.flags = .int f → e.text = .str t →
      ∃ e', e.parse_message = .ok e' ∧
        (f.land 2 ≠ 0 → e'.from_me = .bool true ∧ e'.to_me = .bool false) ∧
        (f.land 2 = 0 → e'.to_me = .bool true ∧ e'.from_me = .bool false)) ∧
    (∀ (raw : PyVal) (e : BotMessageEvent), botDecode raw = .ok e →
      e.to_me = .bool true) :=
  ⟨parse_message_direction, botDecode_to_me⟩

/-- C8 (witness): the amended statement applied to a fresh inbound
`MESSAGE_NEW` event (outbox bit clear) and to the concretely decoded
webhook payload. -/
theorem C8_direction_flags_witness :
    (∃ e', ({ initEvent [] with type := .enum .MESSAGE_NEW, flags := .int 1, text := .str "" } : MessageEvent).parse_message = .ok e' ∧
      e'.to_me = .bool true ∧ e'.from_me = .bool false) ∧
    (∀ e, botDecode (botMsgRaw 55 (-1)) = .ok e → e.to_me = .bool true) := by
  constructor
  · obtain ⟨e', hok, -, hdir⟩ :=
      C8_direction_flags.1 { initEvent [] with type := .enum .MESSAGE_NEW, flags := .int 1, text := .str "" } 1 "" rfl rfl rfl rfl rfl
    exact ⟨e', hok, hdir (by decide)⟩
  · exact fun e h => C8_direction_flags.2 (botMsgRaw 55 (-1)) e h

/-- C9 (counterexample): the repeat path is a recursive self-call, so
the nesting depth of `wait` invocations over the soft-failure scripts is
not bounded by any constant — refuting the claim that the stack depth is
independent of the number of repetitions. -/
theorem C9_recursion_counterexample :
    ¬ ∃ c : Nat, ∀ n : Nat, waitDepth [] (softScript n) sEstablished ≤ c := by
  rintro ⟨c, hc⟩
  have h := hc (c + 1)
  rw [waitDepth, wait_soft_repeats (c + 1) sEstablished rfl] at h
  omega

/-- C9 (amended): the repeat-on-soft-failure path of `wait` is the
recursive self-call of line 94, so a run over `n` soft-resync responses
consumes a nesting depth of exactly `n + 1` wait invocations — linear in
the number of repetitions, not constant. -/
theorem C9_recursion_depth_linear (n : Nat) (s : LPState)
    (h : s.base_url.isSome = true) :
    waitDepth [] (softScript n) s = n + 1 := by
  rw [waitDepth, wait_soft_repeats n s h]

/-- C9 (witness): the amended statement evaluated on a two-failure
script from the established state. -/
theorem C9_recursion_depth_linear_witness :
    waitDepth [] (softScript 2) sEstablished = 3 :=
  C9_recursion_depth_linear 2 sEstablished rfl

/-- C10: when the bulk tier returns a single photo attachment none of
whose sizes carries a resolvable url, `_map` contributes nothing, the
resolution falls through to the inline-token tier, and with no
`attach1`/`attach1_type` token pair present the overall result is the
empty list — never an error. -/
theorem C10_attachment_fallback (api : AttachApi) (e : MessageEvent) (sizes : List PyVal)
    (hb : fromMessagesGetById api = .ok (.list [photoAtt sizes]))
    (hsz : ∀ s ∈ sizes, ∃ kvs, s = PyVal.dict kvs ∧
      ((dictLookup kvs "url").getD .none).truthy = false) :
    mapAtts (.list [photoAtt sizes]) = .ok [] ∧
    normalizedAttachments api e = inlineTier api (pyOr e.extra_values (.dict [])) ∧
    ((e.extra_values = .none ∨
        ∃ kvs, e.extra_values = .dict kvs ∧ dictLookup kvs "attach1" = Option.none) →
      normalizedAttachments api e = .ok []) := by
  have hfold : mapPhotoSizes sizes = .ok [] := mapPhotoSizes_no_url sizes hsz
  have hmap : mapAtts (.list [photoAtt sizes]) = .ok [] := by
    have hty : (photoAtt sizes).get "type" = .ok (.str "photo") := rfl
    rw [mapAtts, pyOr_list_nil]
    simp only [mapAttsGo, hty, bind, Except.bind, pure, Except.pure]
    have hpe : pyEq (.str "photo") (.str "photo") = true := rfl
    rw [hpe]
    simp only [if_true]
    have hget : (photoAtt sizes).get "photo" =
        .ok (PyVal.dict [("sizes", PyVal.list sizes)]) := rfl
    rw [hget]
    simp only [bind, Except.bind]
    have h2 : pyOr (PyVal.dict [("sizes", PyVal.list sizes)]) (PyVal.dict []) =
        PyVal.dict [("sizes", PyVal.list sizes)] := rfl
    rw [h2]
    have h3 : (PyVal.dict [("sizes", PyVal.list sizes)]).get "sizes" =
        .ok (PyVal.list sizes) := rfl
    rw [h3]
    simp only [bind, Except.bind, pyOr_list_nil, hfold, pure, Except.pure]
    rfl
  refine ⟨hmap, ?_, ?_⟩
  · rw [normalizedAttachments, hb]
    simp [bind, Except.bind, hmap]
  · rintro (hex | ⟨kvs, hex, hlk⟩)
    · rw [normalizedAttachments, hb]
      simp only [bind, Except.bind, hmap, hex]
      rfl
    · rw [normalizedAttachments, hb]
      simp only [bind, Except.bind, hmap, hex]
      by_cases htr : (PyVal.dict kvs).truthy = true
      · have hor : pyOr (PyVal.dict kvs) (.dict []) = .dict kvs := by simp [pyOr, htr]
        rw [hor, inlineTier]
        have hlk1 : dictLookup kvs (toString "attach" ++ toString 1 ++ toString "")
            = Option.none := by
          rw [show (toString "attach" ++ toString 1 ++ toString "" : String) = "attach1"
            from rfl]
          exact hlk
        simp [inlineGo, pyContains, hlk1, bind, Except.bind]
      · have hor : pyOr (PyVal.dict kvs) (.dict []) = .dict [] := by
          simp [pyOr]
          intro hcon
          exact absurd hcon htr
        rw [hor]
        rfl

/-- C10 (witness): the statement evaluated on the concrete api whose
bulk lookup returns one url-less photo and an event with no extra
values, extracting the empty result. -/
theorem C10_attachment_fallback_witness :
    normalizedAttachments (apiBulkPhoto [urlLessSize]) (initEvent []) = .ok [] := by
  obtain ⟨-, -, hempty⟩ :=
    C10_attachment_fallback (apiBulkPhoto [urlLessSize]) (initEvent []) [urlLessSize]
      rfl
      (by
        intro s hs
        simp only [List.mem_singleton] at hs
        subst hs
        exact ⟨[("type", .str "m")], rfl, rfl⟩)
  exact hempty (Or.inl rfl)
